import Mathlib

/-!
Verification of the Bubblekit streaming session engine
(`apps/server/bubblekit/runtime.py` and `apps/server/bubblekit/server.py`)
against its natural-language specification.

The Python code is shallowly embedded: dicts become insertion-ordered
association lists over `String` keys, JSON-like values become the inductive
`JVal`, mutation becomes explicit state passing, event emission becomes an
explicit list of emitted events, and exceptions become `Except`.
-/

set_option maxHeartbeats 1000000

namespace Bubblekit

/-- JSON-like Python values as they appear in bubble configs, patches and
conversation-list entries. -/
inductive JVal where
  | null : JVal
  | bool : Bool → JVal
  | int : Int → JVal
  | str : String → JVal
  | obj : List (String × JVal) → JVal

/-- Lookup in an insertion-ordered Python dict (first, hence only, occurrence
of the key). -/
def dictGet {α : Type} : List (String × α) → String → Option α
  | [], _ => none
  | (k0, v) :: rest, k => if k0 = k then some v else dictGet rest k

/-- Python `d[k] = v`: replace the value in place if the key exists, else
append the new key at the end (insertion order). -/
def dictSet {α : Type} : List (String × α) → String → α → List (String × α)
  | [], k, v => [(k, v)]
  | (k0, v0) :: rest, k, v =>
    if k0 = k then (k0, v) :: rest else (k0, v0) :: dictSet rest k v

/-- Python `d.pop(k, None)` restricted to its removal effect: drop the first
occurrence of the key. -/
def dictRemove {α : Type} : List (String × α) → String → List (String × α)
  | [], _ => []
  | (k0, v0) :: rest, k => if k0 = k then rest else (k0, v0) :: dictRemove rest k

/-- Python `d.update(p)`: assign every key of `p` into `d` in order. -/
def dictUpdate {α : Type} (d p : List (String × α)) : List (String × α) :=
  p.foldl (fun acc kv => dictSet acc kv.1 kv.2) d

/-- Python `str()` on the embedded values. Scalars follow CPython's rendering;
the rendering of a whole dict is not needed by any code path the claims
exercise, so it is abstracted to a fixed placeholder. -/
def pyStr : JVal → String
  | .null => "None"
  | .bool true => "True"
  | .bool false => "False"
  | .int n => toString n
  | .str s => s
  | .obj _ => "\x7b...\x7d"

/-- Python `x or default` for an optional string: `None` and the empty string
are falsy and fall through to the default. -/
def pyStrOr (x : Option String) (d : String) : String :=
  match x with
  | some s => if s = "" then d else s
  | none => d

theorem dictGet_dictSet {α : Type} (d : List (String × α)) (k : String) (v : α)
    (k' : String) :
    dictGet (dictSet d k v) k' = if k = k' then some v else dictGet d k' := by
  induction d with
  | nil =>
    by_cases h : k = k' <;> simp [dictSet, dictGet, h]
  | cons kv rest ih =>
    obtain ⟨k0, v0⟩ := kv
    by_cases h0 : k0 = k
    · subst h0
      by_cases h1 : k0 = k' <;> simp [dictSet, dictGet, h1]
    · by_cases h1 : k0 = k'
      · subst h1
        have hk : ¬ k = k0 := fun h => h0 h.symm
        simp [dictSet, dictGet, h0, hk]
      · simp [dictSet, dictGet, h0, h1, ih]

theorem dictGet_append {α : Type} (a b : List (String × α)) (k : String) :
    dictGet (a ++ b) k =
      match dictGet a k with
      | some v => some v
      | none => dictGet b k := by
  induction a with
  | nil => simp [dictGet]
  | cons kv rest ih =>
    obtain ⟨k0, v0⟩ := kv
    simp only [List.cons_append, dictGet]
    by_cases h : k0 = k <;> simp [h, ih]

theorem dictGet_eq_none_of_not_mem {α : Type} (d : List (String × α)) (k : String)
    (h : k ∉ d.map Prod.fst) : dictGet d k = none := by
  induction d with
  | nil => simp [dictGet]
  | cons kv rest ih =>
    obtain ⟨k0, v0⟩ := kv
    simp only [List.map_cons, List.mem_cons] at h
    push_neg at h
    simp only [dictGet]
    have : k0 ≠ k := fun he => h.1 he.symm
    simp [this, ih h.2]

theorem dictGet_dictUpdate {α : Type} (d p : List (String × α)) (k : String)
    (hnd : (p.map Prod.fst).Nodup) :
    dictGet (dictUpdate d p) k =
      match dictGet p k with
      | some v => some v
      | none => dictGet d k := by
  induction p generalizing d with
  | nil => simp [dictUpdate, dictGet]
  | cons kv rest ih =>
    obtain ⟨k0, v0⟩ := kv
    simp only [List.map_cons, List.nodup_cons] at hnd
    have hstep : dictUpdate d ((k0, v0) :: rest) = dictUpdate (dictSet d k0 v0) rest := rfl
    rw [hstep, ih _ hnd.2]
    simp only [dictGet]
    by_cases h : k0 = k
    · subst h
      have hnone : dictGet rest k0 = none :=
        dictGet_eq_none_of_not_mem rest k0 hnd.1
      simp [hnone, dictGet_dictSet]
    · rcases hrest : dictGet rest k with _ | v
      · simp [hrest, dictGet_dictSet, h]
      · simp [hrest, h]

/-- Wire events, mirroring the dict shapes emitted by runtime.py/server.py
(spec section 6). `doneBubble` is the per-bubble completion event
`type done / bubbleId`; `doneStream` is the stream terminal event
`type done / reason`. -/
inductive Event where
  | set : (bubbleId : String) → (content : String) → Event
  | delta : (bubbleId : String) → (content : String) → Event
  | config : (bubbleId : String) → (patch : List (String × JVal)) → Event
  | doneBubble : (bubbleId : String) → Event
  | doneStream : (reason : String) → Event
  | interrupted : (reason : String) → Event
  | error : (message : String) → (reason : String) → Event
  | heartbeat : Event
  | meta : (conversationId : String) → Event
  | started : (conversationId : String) → Event
  | progress : (stage : String) → Event

/-- BubbleState (runtime.py lines 132-140). -/
structure BubbleState where
  id : String
  role : String
  type : String
  content : String := ""
  config : List (String × JVal) := []
  createdAt : Option String := none
  done : Bool := false

/-- The session context a Bubble handle sees: whether `_session` is not None,
and — when it is — whether that session currently has a stream attached
(`session.has_stream()`, runtime.py lines 212-213). `hasStream` is only
meaningful when `hasSession = true`. -/
structure BubbleCtx where
  hasSession : Bool
  hasStream : Bool

/-- The `_merge_colors` helper (runtime.py lines 33-47): merge an incoming
colors mapping into the existing one; for the `bubble` and `header` keys,
when both sides hold dicts the sub-dicts are merged key-by-key
(`value` entries overwriting `current` ones), otherwise the incoming value
replaces the existing one. `merge_colors_step` is the body of the loop over
the incoming items. -/
def merge_colors_step (merged : List (String × JVal)) (kv : String × JVal) :
    List (String × JVal) :=
  if kv.1 = "bubble" ∨ kv.1 = "header" then
    match kv.2 with
    | JVal.obj value =>
      match dictGet merged kv.1 with
      | some (JVal.obj current) => dictSet merged kv.1 (JVal.obj (dictUpdate current value))
      | _ => dictSet merged kv.1 (JVal.obj value)
    | _ => dictSet merged kv.1 kv.2
  else dictSet merged kv.1 kv.2

def merge_colors (existing incoming : List (String × JVal)) : List (String × JVal) :=
  incoming.foldl merge_colors_step existing

namespace Bubble

/-- Bubble.set (runtime.py lines 475-480): replace the content and, when the
bubble has a session with an attached stream, emit a full-content `set`
event. -/
def set (ctx : BubbleCtx) (st : BubbleState) (text : String) :
    BubbleState × List Event :=
  let st1 := { st with content := text }
  if ctx.hasSession = true ∧ ctx.hasStream = true then
    (st1, [Event.set st.id text])
  else (st1, [])

/-- Bubble.stream (runtime.py lines 482-487): append the chunk to the content
and, when the bubble has a session with an attached stream, emit a `delta`
event carrying only the chunk. -/
def stream (ctx : BubbleCtx) (st : BubbleState) (text : String) :
    BubbleState × List Event :=
  let st1 := { st with content := st.content ++ text }
  if ctx.hasSession = true ∧ ctx.hasStream = true then
    (st1, [Event.delta st.id text])
  else (st1, [])

/-- Bubble.done (runtime.py lines 539-545): a no-op when the done flag is
already true; otherwise set the flag and, when a stream is attached, emit the
per-bubble `done` event. -/
def done (ctx : BubbleCtx) (st : BubbleState) : BubbleState × List Event :=
  if st.done = true then (st, [])
  else
    let st1 := { st with done := true }
    if ctx.hasSession = true ∧ ctx.hasStream = true then
      (st1, [Event.doneBubble st.id])
    else (st1, [])

/-- Bubble._apply_config (runtime.py lines 623-653): pop `role`/`type` from
the patch into dedicated state fields, merge the remaining patch into the
config dict with `_merge_colors` applied when both the incoming patch and the
existing config hold a `colors` dict, and emit a single `config` event with
the applied patch when `emit` is set, something changed, and a stream is
attached. -/
def applyConfig (ctx : BubbleCtx) (st : BubbleState)
    (patch : List (String × JVal)) (emit : Bool) : BubbleState × List Event :=
  match patch with
  | [] => (st, [])
  | _ =>
    let role := (dictGet patch "role").getD JVal.null
    let btype := (dictGet patch "type").getD JVal.null
    let patchCopy := dictRemove (dictRemove patch "role") "type"
    let st1 := match role with
      | JVal.null => st
      | _ => { st with role := pyStr role }
    let eventPatch1 : List (String × JVal) := match role with
      | JVal.null => []
      | _ => [("role", JVal.str st1.role)]
    let st2 := match btype with
      | JVal.null => st1
      | _ => { st1 with type := pyStr btype }
    let eventPatch2 := match btype with
      | JVal.null => eventPatch1
      | _ => dictSet eventPatch1 "type" (JVal.str st2.type)
    match patchCopy with
    | [] =>
      if emit = true ∧ eventPatch2.isEmpty = false ∧ ctx.hasSession = true ∧ ctx.hasStream = true then
        (st2, [Event.config st.id eventPatch2])
      else (st2, [])
    | _ =>
      let incomingPatch := patchCopy
      let patchCopy2 :=
        match dictGet patchCopy "colors", dictGet st2.config "colors" with
        | some (JVal.obj incomingColors), some (JVal.obj existingColors) =>
          dictSet patchCopy "colors" (JVal.obj (merge_colors existingColors incomingColors))
        | _, _ => patchCopy
      let st3 := { st2 with config := dictUpdate st2.config patchCopy2 }
      let eventPatch3 := dictUpdate eventPatch2 incomingPatch
      if emit = true ∧ eventPatch3.isEmpty = false ∧ ctx.hasSession = true ∧ ctx.hasStream = true then
        (st3, [Event.config st.id eventPatch3])
      else (st3, [])

/-- Bubble.config (runtime.py lines 491-537) after the keyword arguments have
been assembled into a patch dict by `_build_config_patch` (an assembly that
does not depend on the session or stream): it calls `_apply_config` with
`emit` set exactly when the bubble has a session. -/
def config (ctx : BubbleCtx) (st : BubbleState) (patch : List (String × JVal)) :
    BubbleState × List Event :=
  applyConfig ctx st patch ctx.hasSession

end Bubble

/-- Items on a stream's asyncio queue: wire events, or the opaque
end-of-stream sentinel `end_signal` (server.py line 254). -/
inductive QueueItem where
  | ev : Event → QueueItem
  | endSignal : QueueItem

/-- Heartbeat interval (server.py line 31). -/
def HEARTBEAT_SECONDS : Nat := 15

/-- Idle timeout for queue waits after the first event (server.py line 32). -/
def IDLE_TIMEOUT_SECONDS : Nat := 60

/-- Timeout for the first queue wait (server.py line 33). -/
def FIRST_EVENT_TIMEOUT_SECONDS : Nat := 30

/-- The ActiveStream record (server.py lines 36-48) together with the pieces
of shared state its methods touch: the owning session's bubbles in creation
order (the stream is attached to that session for the whole life of the
record), the channel's closed flag, and the queue contents in enqueue
order. -/
structure ActiveStream where
  streamId : String
  conversationId : String
  sessionBubbles : List BubbleState
  channelClosed : Bool := false
  queueItems : List QueueItem := []
  reason : String := "done"
  reasonDetail : Option String := none
  errorMessage : Option String := none
  closed : Bool := false

namespace ActiveStream

/-- StreamChannel.emit (runtime.py lines 175-186) as seen through the stream's
queue: dropped when the channel is closed, otherwise enqueued in order (the
thread-safe handoff lands the event on the same queue). -/
def emit (s : ActiveStream) (e : Event) : ActiveStream :=
  if s.channelClosed = true then s
  else { s with queueItems := s.queueItems ++ [QueueItem.ev e] }

/-- ActiveStream.set_reason (server.py lines 50-65): ignored once the stream
is closed with a non-`done` reason, and once the reason has left `done` a
different reason is ignored; otherwise the reason is written, and the detail
and error message are each written only when supplied. -/
def setReason (s : ActiveStream) (reason : String)
    (detail : Option String := none) (errorMessage : Option String := none) :
    ActiveStream :=
  if s.closed = true ∧ s.reason ≠ "done" then s
  else if s.reason ≠ "done" ∧ s.reason ≠ reason then s
  else
    { s with
      reason := reason
      reasonDetail := match detail with
        | some d => some d
        | none => s.reasonDetail
      errorMessage := match errorMessage with
        | some m => some m
        | none => s.errorMessage }

/-- BubbleSession.finalize_pending (runtime.py lines 242-247) acting on the
stream's session: collect the not-done bubbles in creation order, mark each
done and emit a per-bubble `done` event for it. Python interleaves the flag
write and the emission per bubble; the net state and emission order are the
same. -/
def finalizePending (s : ActiveStream) : ActiveStream × List String :=
  let pendingIds := (s.sessionBubbles.filter (fun b => b.done = false)).map (fun b => b.id)
  let s1 := { s with
    sessionBubbles := s.sessionBubbles.map
      (fun b => if b.done = true then b else { b with done := true }) }
  let s2 := pendingIds.foldl (fun acc i => acc.emit (Event.doneBubble i)) s1
  (s2, pendingIds)

/-- The terminal event construction inside ActiveStream.close
(server.py lines 77-93): an error event with message and reason when the
reason is error, an interrupted event with the reason detail when
interrupted, otherwise a done event with the detail defaulting to
normal. -/
def closeTerminal (s : ActiveStream) : Event :=
  if s.reason = "error" then
    Event.error (pyStrOr s.errorMessage "stream error") (pyStrOr s.reasonDetail "error")
  else if s.reason = "interrupted" then
    Event.interrupted (pyStrOr s.reasonDetail "interrupted")
  else
    Event.doneStream (pyStrOr s.reasonDetail "normal")

/-- ActiveStream.close (server.py lines 67-98): a no-op returning false when
already closed; otherwise apply the optional reason through `set_reason`
(Python's `if reason:` — only a non-empty string counts), auto-finalize the
session's pending bubbles (`warn_if_not_done` only warns), build the single
terminal event from the reason, emit it, enqueue the end sentinel (a direct
`put_nowait`, not guarded by the channel flag), mark closed and return
true. -/
def close (s : ActiveStream) (reason : Option String := none) :
    ActiveStream × Bool :=
  if s.closed = true then (s, false)
  else
    let s1 := match reason with
      | some r => if r ≠ "" then s.setReason r else s
      | none => s
    let fp := s1.finalizePending
    let s2 := fp.1
    let s3 := s2.emit (closeTerminal s2)
    let s4 := { s3 with queueItems := s3.queueItems ++ [QueueItem.endSignal] }
    ({ s4 with closed := true }, true)

end ActiveStream

/-- Timeout chosen for the next queue wait in the consumer loop
(server.py lines 327-331): the first-event timeout until an event has been
seen, the idle timeout afterwards. -/
def nextTimeout (firstEventSeen : Bool) : Nat :=
  if firstEventSeen = false then FIRST_EVENT_TIMEOUT_SECONDS else IDLE_TIMEOUT_SECONDS

/-- Outcome of one `asyncio.wait_for(queue.get(), timeout)` call: either the
wait timed out, or a queue item arrived. -/
inductive WaitOutcome where
  | timedOut : WaitOutcome
  | got : QueueItem → WaitOutcome

/-- State of the consumer loop in `event_stream` (server.py lines 325-344):
the active stream record, the first-event flag, the events yielded to the
client so far, and whether the loop has exited via `break`. -/
structure LoopState where
  active : ActiveStream
  firstEventSeen : Bool := false
  yielded : List Event := []
  finished : Bool := false

/-- One iteration of the consumer loop body (server.py lines 325-344). A
timeout sets reason `interrupted`/`idle_timeout`, triggers close and
continues consuming; a dequeued end sentinel closes (if not yet closed) and
continues, or breaks if already closed; any other event is yielded to the
client. -/
def consumeStep (ls : LoopState) (w : WaitOutcome) : LoopState :=
  if ls.finished = true then ls
  else
    match w with
    | WaitOutcome.timedOut =>
      let a1 := ls.active.setReason "interrupted" (some "idle_timeout")
      let a2 := (a1.close (some "interrupted")).1
      { ls with active := a2 }
    | WaitOutcome.got item =>
      let ls1 := { ls with firstEventSeen := true }
      match item with
      | QueueItem.endSignal =>
        if ls1.active.closed = false then
          { ls1 with active := (ls1.active.close).1 }
        else { ls1 with finished := true }
      | QueueItem.ev e => { ls1 with yielded := ls1.yielded ++ [e] }

/-- The consumer loop driven by a script of wait outcomes, stopping early
once it has exited via `break`. -/
def consumeLoop (ls : LoopState) : List WaitOutcome → LoopState
  | [] => ls
  | w :: rest => consumeLoop (consumeStep ls w) rest

/-- Python positional-argument binding for a callable whose parameters are all
required and positional: the call binds exactly when the argument count
matches the parameter count, otherwise it raises TypeError. -/
def pyBindPositional (paramCount argCount : Nat) : Except Unit Unit :=
  if argCount = paramCount then Except.ok () else Except.error ()

/-- Number of parameters of StreamChannel.__init__ after self
(runtime.py line 170): queue and loop. -/
def streamChannelInitParamCount : Nat := 2

/-- Number of positional arguments passed to StreamChannel by the
submit-message endpoint (server.py line 253): the queue, the running loop,
and the stream id. -/
def streamChatStreamChannelArgCount : Nat := 3

/-- The submit-message request handler `stream_chat`
(server.py lines 244-263 and the start of `event_stream`, lines 316-319),
with the StreamChannel construction modelled by Python's positional-binding
rule. On success it would register the ActiveStream under its stream id and
the consumer would open with the meta/started/progress events; a TypeError
from the construction aborts the request before any event is emitted and
before any stream state is created, leaving the active-stream index
unchanged. -/
def streamChatRequest (activeStreamIds : List String) (streamId : String)
    (payloadConversationId : Option String) (conversationId : String) :
    Except Unit Unit × List Event × List String :=
  match pyBindPositional streamChannelInitParamCount streamChatStreamChannelArgCount with
  | Except.error e => (Except.error e, [], activeStreamIds)
  | Except.ok _ =>
    let opening :=
      (match payloadConversationId with
        | none => [Event.meta conversationId]
        | some _ => []) ++
      [Event.started conversationId, Event.progress "processing"]
    (Except.ok (), opening, activeStreamIds ++ [streamId])

/-- Concatenation of a sequence of streamed chunks. -/
def concatChunks : List String → String
  | [] => ""
  | c :: rest => c ++ concatChunks rest

/-- A sequence of calls `stream(c1), ..., stream(cn)` on one bubble: every
call mutates the same state, and the emitted events accumulate in call
order. -/
def streamAll (ctx : BubbleCtx) (st : BubbleState) :
    List String → BubbleState × List Event
  | [] => (st, [])
  | c :: rest =>
    let r := Bubble.stream ctx st c
    let r2 := streamAll ctx r.1 rest
    (r2.1, r.2 ++ r2.2)

/-- The `_normalize_user_id` helper (runtime.py lines 320-324): a missing or
blank user id normalizes to the fixed anonymous identity, anything else to
its stripped form. -/
def normalize_user_id : Option String → String
  | none => "anonymous"
  | some s => if s.trim = "" then "anonymous" else s.trim

/-- A conversation-list entry: a Python dict of JSON-like values. -/
abbrev ConvItem := List (String × JVal)

/-- The `_validate_conversation_item` helper (runtime.py lines 335-367):
requires the id, title and updatedAt fields (id non-None and stringified,
title a string, updatedAt an integer — Python bools are a separate
constructor here, so the bool exclusion is structural), then rebuilds the
entry with those three fields first followed by every passthrough field in
item order, skipping keys already present. -/
def validate_conversation_item (item : ConvItem) : Except Unit ConvItem :=
  match dictGet item "id", dictGet item "title", dictGet item "updatedAt" with
  | some rawId, some (JVal.str title), some (JVal.int updatedAt) =>
    match rawId with
    | JVal.null => Except.error ()
    | _ =>
      let base : ConvItem :=
        [("id", JVal.str (pyStr rawId)), ("title", JVal.str title),
         ("updatedAt", JVal.int updatedAt)]
      Except.ok (item.foldl
        (fun acc kv => if (dictGet acc kv.1).isNone then acc ++ [kv] else acc) base)
  | _, _, _ => Except.error ()

/-- The list comprehension in set_conversation_list
(runtime.py lines 378-380): validate the entries in order, aborting at the
first validation error. -/
def validateConversationList : List ConvItem → Except Unit (List ConvItem)
  | [] => Except.ok []
  | item :: rest =>
    match validate_conversation_item item, validateConversationList rest with
    | Except.ok n, Except.ok ns => Except.ok (n :: ns)
    | Except.error e, _ => Except.error e
    | _, Except.error e => Except.error e

/-- set_conversation_list (runtime.py lines 370-383): validate every entry
(in order), then store the normalized list under the normalized user id,
replacing any previous list for that user. The process-wide
`_conversation_lists` mapping is passed explicitly. -/
def set_conversation_list (lists : List (String × List ConvItem))
    (userId : Option String) (conversations : List ConvItem) :
    Except Unit (List (String × List ConvItem)) :=
  match validateConversationList conversations with
  | Except.ok normalizedList =>
    Except.ok (dictSet lists (normalize_user_id userId) normalizedList)
  | Except.error e => Except.error e

/-- get_conversation_list (runtime.py lines 386-389): the list stored under
the normalized user id, defaulting to the empty list (the returned per-item
copies are value-equal to the stored items). -/
def get_conversation_list (lists : List (String × List ConvItem))
    (userId : Option String) : List ConvItem :=
  match dictGet lists (normalize_user_id userId) with
  | some stored => stored
  | none => []

/-- The slice of BubbleSession state that Bubble.send touches
(runtime.py lines 192-227): the bubbles in creation order and whether a
stream is attached. -/
structure BubbleSession where
  conversationId : String
  bubbles : List BubbleState := []
  hasStreamAttached : Bool := false

/-- Bubble.send (runtime.py lines 547-572): fails on a template that already
has a session; otherwise creates a fresh bubble state in the active session
(id from the template when the id was fixed, else a newly generated one,
passed in as `freshId`), copies createdAt, marks the new bubble done
immediately when the session has no stream, applies the template's role,
type and config as an initial patch (emitting only when a stream is
attached), replays non-empty template content through `set`, and finishes
with `done()` when the template was done and a stream is attached. -/
def Bubble.send (tmplAttached : Bool) (tmpl : BubbleState) (idFixed : Bool)
    (freshId : String) (sess : BubbleSession) :
    Except Unit (BubbleState × BubbleSession × List Event) :=
  if tmplAttached = true then Except.error ()
  else
    let hasStream := sess.hasStreamAttached
    let bubbleId := if idFixed = true then tmpl.id else freshId
    if bubbleId ∈ sess.bubbles.map (fun b => b.id) then Except.error ()
    else
      let created : BubbleState :=
        { id := bubbleId, role := tmpl.role, type := tmpl.type,
          createdAt := tmpl.createdAt,
          done := if hasStream = false then true else false }
      let ctx : BubbleCtx := ⟨true, hasStream⟩
      let initBase : List (String × JVal) :=
        [("role", JVal.str tmpl.role), ("type", JVal.str tmpl.type)]
      let initPatch := match tmpl.config with
        | [] => initBase
        | _ => dictUpdate initBase tmpl.config
      let r1 := Bubble.applyConfig ctx created initPatch hasStream
      let r2 := if tmpl.content ≠ "" then Bubble.set ctx r1.1 tmpl.content else (r1.1, [])
      let r3 := if tmpl.done = true ∧ hasStream = true then Bubble.done ctx r2.1 else (r2.1, [])
      Except.ok (r3.1, { sess with bubbles := sess.bubbles ++ [r3.1] }, r1.2 ++ r2.2 ++ r3.2)

/-! General lemmas about the bubble operations. -/

theorem applyConfig_fst_eq (ctx ctx' : BubbleCtx) (st : BubbleState)
    (p : List (String × JVal)) (e e' : Bool) :
    (Bubble.applyConfig ctx st p e).1 = (Bubble.applyConfig ctx' st p e').1 := by
  cases p with
  | nil => rfl
  | cons kv rest =>
    simp only [Bubble.applyConfig]
    split
    · split_ifs <;> rfl
    · split_ifs <;> rfl

theorem applyConfig_snd_no_stream (ctx : BubbleCtx)
    (hns : ¬(ctx.hasSession = true ∧ ctx.hasStream = true)) (st : BubbleState)
    (p : List (String × JVal)) (e : Bool) :
    (Bubble.applyConfig ctx st p e).2 = [] := by
  have hsplit : ctx.hasSession = false ∨ ctx.hasStream = false := by
    cases hs : ctx.hasSession with
    | false => exact Or.inl rfl
    | true =>
      cases ht : ctx.hasStream with
      | false => exact Or.inr rfl
      | true => exact absurd ⟨hs, ht⟩ hns
  cases p with
  | nil => rfl
  | cons kv rest =>
    simp only [Bubble.applyConfig]
    split
    · rcases hsplit with h | h <;> simp [h]
    · rcases hsplit with h | h <;> simp [h]

/-- C1: every request to the submit-message streaming endpoint constructs
StreamChannel with three positional arguments (queue, loop, stream id) while
StreamChannel.__init__ accepts only two (queue, loop), so the request raises
TypeError before any event is emitted and before any stream state is
created: whatever the request payload, the modelled handler returns the
TypeError, an empty event trace, and an unchanged active-stream index. -/
theorem C1_stream_channel_arity_type_error (activeStreamIds : List String)
    (streamId : String) (payloadConversationId : Option String)
    (conversationId : String) :
    streamChatRequest activeStreamIds streamId payloadConversationId conversationId
      = (Except.error (), [], activeStreamIds) := rfl

/-- C2: for a bubble whose session has an active stream, a sequence of
stream(c1), ..., stream(cn) calls emits exactly the delta events for
c1, ..., cn in call order (each carrying only its own chunk), and the final
content is the previous content followed by the concatenation of the
chunks. -/
theorem C2_stream_deltas_in_order (ctx : BubbleCtx) (st : BubbleState)
    (chunks : List String) (h1 : ctx.hasSession = true) (h2 : ctx.hasStream = true) :
    (streamAll ctx st chunks).2 = chunks.map (fun c => Event.delta st.id c) ∧
    (streamAll ctx st chunks).1.content = st.content ++ concatChunks chunks ∧
    (streamAll ctx st chunks).1.id = st.id := by
  induction chunks generalizing st with
  | nil => simp [streamAll, concatChunks]
  | cons c rest ih =>
    have hstream : Bubble.stream ctx st c =
        ({ st with content := st.content ++ c }, [Event.delta st.id c]) := by
      simp [Bubble.stream, h1, h2]
    obtain ⟨e1, e2, e3⟩ := ih { st with content := st.content ++ c }
    refine ⟨?_, ?_, ?_⟩
    · simp [streamAll, hstream, e1, e3]
    · simp only [streamAll, hstream]
      rw [e2]
      simp [concatChunks, String.append_assoc]
    · simp [streamAll, hstream, e3]

/-- A closed instance of C2 at two concrete chunks. -/
theorem C2_stream_deltas_in_order_witness :
    (streamAll ⟨true, true⟩ { id := "b2", role := "assistant", type := "text" }
        ["Hi", "!"]).2 = [Event.delta "b2" "Hi", Event.delta "b2" "!"] ∧
    (streamAll ⟨true, true⟩ { id := "b2", role := "assistant", type := "text" }
        ["Hi", "!"]).1.content = "" ++ concatChunks ["Hi", "!"] := by
  have h := C2_stream_deltas_in_order ⟨true, true⟩
    { id := "b2", role := "assistant", type := "text" } ["Hi", "!"] rfl rfl
  exact ⟨h.1, h.2.1⟩

/-- A bubble whose done flag is already set. -/
def C3doneBubble : BubbleState :=
  { id := "b1", role := "assistant", type := "text", done := true }

/-- C3 fails on the code: with done already true and a stream attached,
Bubble.stream still emits a delta event for that id, so it is not the case
that no further content event is emitted after the first done(). -/
theorem C3_counterexample :
    C3doneBubble.done = true ∧
    (Bubble.stream ⟨true, true⟩ C3doneBubble "x").2 = [Event.delta "b1" "x"] ∧
    (Bubble.stream ⟨true, true⟩ C3doneBubble "x").2 ≠ [] := by
  refine ⟨rfl, rfl, ?_⟩
  intro h
  exact List.noConfusion h

/-- C3 amended: once the done flag is true no further done event is emitted —
done() is a complete no-op (state and events), so done() called twice emits
exactly one done event and the second call emits nothing; content events
from set/stream are not suppressed by the flag. -/
theorem C3_done_idempotent (ctx : BubbleCtx) (st : BubbleState) :
    (st.done = true → Bubble.done ctx st = (st, [])) ∧
    (st.done = false → ctx.hasSession = true → ctx.hasStream = true →
      (Bubble.done ctx st).2 = [Event.doneBubble st.id] ∧
      ((Bubble.done ctx st).1).done = true ∧
      Bubble.done ctx (Bubble.done ctx st).1 = ((Bubble.done ctx st).1, [])) := by
  constructor
  · intro h
    simp [Bubble.done, h]
  · intro h h1 h2
    simp [Bubble.done, h, h1, h2]

/-- A fresh bubble for the C3 witness. -/
def C3freshBubble : BubbleState := { id := "b2", role := "assistant", type := "text" }

/-- A closed instance of the amended C3: one done event on the first call,
nothing on the second. -/
theorem C3_done_idempotent_witness :
    C3doneBubble.done = true ∧
    Bubble.done ⟨true, true⟩ C3doneBubble = (C3doneBubble, []) ∧
    C3freshBubble.done = false ∧
    (Bubble.done ⟨true, true⟩ C3freshBubble).2 = [Event.doneBubble "b2"] := by
  refine ⟨rfl, (C3_done_idempotent ⟨true, true⟩ C3doneBubble).1 rfl, rfl, ?_⟩
  exact ((C3_done_idempotent ⟨true, true⟩ C3freshBubble).2 rfl rfl rfl).1

/-- C4: while the reason is still `done`, set_reason overwrites the reason
and writes the supplied detail and error message; once the reason is `error`
or `interrupted`, a set_reason with a different reason changes nothing — a
late error cannot override an early interrupted and vice versa. -/
theorem C4_set_reason_first_write_wins (s : ActiveStream) (r : String)
    (d e : Option String) :
    (s.reason = "done" →
      (s.setReason r d e).reason = r ∧
      (s.setReason r d e).reasonDetail =
        (match d with | some x => some x | none => s.reasonDetail) ∧
      (s.setReason r d e).errorMessage =
        (match e with | some x => some x | none => s.errorMessage)) ∧
    ((s.reason = "error" ∨ s.reason = "interrupted") → r ≠ s.reason →
      s.setReason r d e = s) := by
  constructor
  · intro hdone
    have hred : s.setReason r d e =
        { s with
          reason := r
          reasonDetail := (match d with | some x => some x | none => s.reasonDetail)
          errorMessage := (match e with | some x => some x | none => s.errorMessage) } := by
      simp only [ActiveStream.setReason, hdone]
      simp
      exact ⟨rfl, rfl⟩
    rw [hred]
    exact ⟨rfl, rfl, rfl⟩
  · intro hre hne
    have hnd : s.reason ≠ "done" := by
      rcases hre with h | h <;> simp [h]
    have hnr : s.reason ≠ r := Ne.symm hne
    by_cases hc : s.closed = true
    · simp [ActiveStream.setReason, hc, hnd]
    · simp [ActiveStream.setReason, hc, hnd, hnr]

/-- A stream whose reason is still the initial `done`. -/
def C4exDone : ActiveStream :=
  { streamId := "s1", conversationId := "c1", sessionBubbles := [] }

/-- A stream already interrupted. -/
def C4exInterrupted : ActiveStream :=
  { streamId := "s2", conversationId := "c1", sessionBubbles := [],
    reason := "interrupted", reasonDetail := some "idle_timeout" }

/-- A closed instance of C4: a first write overwrites `done`, a later
different write bounces off `interrupted`. -/
theorem C4_set_reason_first_write_wins_witness :
    (C4exDone.setReason "error" (some "handler_error") (some "boom")).reason = "error" ∧
    C4exInterrupted.setReason "error" (some "handler_error") (some "boom")
      = C4exInterrupted := by
  refine ⟨((C4_set_reason_first_write_wins C4exDone "error"
    (some "handler_error") (some "boom")).1 rfl).1, ?_⟩
  exact (C4_set_reason_first_write_wins C4exInterrupted "error"
    (some "handler_error") (some "boom")).2 (Or.inr rfl) (by decide)

/-- C8: with no session, or a session without an attached stream, set,
stream, done and config emit no event, while the local state mutates exactly
as it would with a stream attached: content replaced or appended, done flag
set, config merged. -/
theorem C8_no_stream_frame (ctx : BubbleCtx)
    (h : ctx.hasSession = false ∨ ctx.hasStream = false) (st : BubbleState)
    (text chunk : String) (patch : List (String × JVal)) :
    (Bubble.set ctx st text).2 = [] ∧
    (Bubble.set ctx st text).1 = (Bubble.set ⟨true, true⟩ st text).1 ∧
    (Bubble.set ctx st text).1.content = text ∧
    (Bubble.stream ctx st chunk).2 = [] ∧
    (Bubble.stream ctx st chunk).1 = (Bubble.stream ⟨true, true⟩ st chunk).1 ∧
    (Bubble.stream ctx st chunk).1.content = st.content ++ chunk ∧
    (Bubble.done ctx st).2 = [] ∧
    (Bubble.done ctx st).1 = (Bubble.done ⟨true, true⟩ st).1 ∧
    (Bubble.done ctx st).1.done = true ∧
    (Bubble.config ctx st patch).2 = [] ∧
    (Bubble.config ctx st patch).1 = (Bubble.config ⟨true, true⟩ st patch).1 := by
  have hns : ¬(ctx.hasSession = true ∧ ctx.hasStream = true) := by
    rintro ⟨h1, h2⟩
    rcases h with h | h
    · rw [h1] at h
      exact Bool.noConfusion h
    · rw [h2] at h
      exact Bool.noConfusion h
  refine ⟨?_, ?_, ?_, ?_, ?_, ?_, ?_, ?_, ?_, ?_, ?_⟩
  · simp [Bubble.set, hns]
  · simp [Bubble.set, hns]
  · simp [Bubble.set, hns]
  · simp [Bubble.stream, hns]
  · simp [Bubble.stream, hns]
  · simp [Bubble.stream, hns]
  · by_cases hd : st.done = true <;> simp [Bubble.done, hd, hns]
  · by_cases hd : st.done = true <;> simp [Bubble.done, hd, hns]
  · by_cases hd : st.done = true <;> simp [Bubble.done, hd, hns]
  · exact applyConfig_snd_no_stream ctx hns st patch ctx.hasSession
  · exact applyConfig_fst_eq ctx ⟨true, true⟩ st patch ctx.hasSession true

/-- A closed instance of C8: a sessionless bubble streams a chunk with no
event while the content still appends. -/
theorem C8_no_stream_frame_witness :
    (Bubble.stream ⟨false, false⟩ C3freshBubble "Hi").2 = [] ∧
    (Bubble.stream ⟨false, false⟩ C3freshBubble "Hi").1.content = "" ++ "Hi" := by
  have h := C8_no_stream_frame ⟨false, false⟩ (Or.inl rfl) C3freshBubble "x" "Hi" []
  exact ⟨h.2.2.2.1, h.2.2.2.2.2.1⟩

theorem emit_queueItems_open (s : ActiveStream) (h : s.channelClosed = false)
    (e : Event) :
    s.emit e = { s with queueItems := s.queueItems ++ [QueueItem.ev e] } := by
  simp [ActiveStream.emit, h]

theorem foldl_emit_open (ids : List String) (s : ActiveStream)
    (h : s.channelClosed = false) :
    ids.foldl (fun acc i => acc.emit (Event.doneBubble i)) s =
      { s with queueItems :=
          s.queueItems ++ ids.map (fun i => QueueItem.ev (Event.doneBubble i)) } := by
  induction ids generalizing s with
  | nil => simp
  | cons i rest ih =>
    rw [List.foldl_cons, emit_queueItems_open s h]
    rw [ih { s with queueItems := s.queueItems ++ [QueueItem.ev (Event.doneBubble i)] } h]
    simp

/-- The state-and-result characterization of the first call to
ActiveStream.close with no reason argument, on an open stream with an open
channel: per-bubble done events for the pending bubbles in creation order,
then the terminal event, then the end sentinel; all session bubbles marked
done; the record marked closed; returns true. -/
theorem close_eq_of_open (s : ActiveStream) (h : s.closed = false)
    (hch : s.channelClosed = false) :
    s.close =
      ({ s with
          sessionBubbles := s.sessionBubbles.map
            (fun b => if b.done = true then b else { b with done := true })
          queueItems := s.queueItems
            ++ ((s.sessionBubbles.filter (fun b => b.done = false)).map
                  (fun b => QueueItem.ev (Event.doneBubble b.id)))
            ++ [QueueItem.ev (ActiveStream.closeTerminal s), QueueItem.endSignal]
          closed := true }, true) := by
  have hfin : s.finalizePending =
      ({ s with
          sessionBubbles := s.sessionBubbles.map
            (fun b => if b.done = true then b else { b with done := true })
          queueItems := s.queueItems ++
            ((s.sessionBubbles.filter (fun b => b.done = false)).map
              (fun b => QueueItem.ev (Event.doneBubble b.id))) },
        ((s.sessionBubbles.filter (fun b => b.done = false)).map (fun b => b.id))) := by
    simp only [ActiveStream.finalizePending]
    rw [foldl_emit_open
      ((s.sessionBubbles.filter (fun b => b.done = false)).map (fun b => b.id))
      { s with sessionBubbles := (s.sessionBubbles.map
          (fun b => if b.done = true then b else { b with done := true })) }
      hch]
    simp [List.map_map]
  have hunfold : s.close =
      ({ (s.finalizePending).1.emit ((s.finalizePending).1.closeTerminal) with
          queueItems :=
            (((s.finalizePending).1.emit
              ((s.finalizePending).1.closeTerminal)).queueItems ++ [QueueItem.endSignal])
          closed := true }, true) := by
    unfold ActiveStream.close
    rw [if_neg (by simp [h])]
  rw [hunfold, hfin]
  rw [emit_queueItems_open
    { s with
        sessionBubbles := (s.sessionBubbles.map
          (fun b => if b.done = true then b else { b with done := true }))
        queueItems := (s.queueItems ++
          ((s.sessionBubbles.filter (fun b => b.done = false)).map
            (fun b => QueueItem.ev (Event.doneBubble b.id)))) }
    hch]
  have hterm : ActiveStream.closeTerminal
      ({ s with
          sessionBubbles := (s.sessionBubbles.map
            (fun b => if b.done = true then b else { b with done := true }))
          queueItems := (s.queueItems ++
            ((s.sessionBubbles.filter (fun b => b.done = false)).map
              (fun b => QueueItem.ev (Event.doneBubble b.id)))) }) = ActiveStream.closeTerminal s := rfl
  rw [hterm]
  simp

/-- Closing an open stream with an explicit reason argument that bounces off
set_reason (because the reason has already left `done` and differs) behaves
exactly like closing with no reason argument. -/
theorem close_some_eq_close_of_setReason_fix (s : ActiveStream) (r : String)
    (h : s.closed = false) (hr : s.setReason r = s) (hne : r ≠ "") :
    s.close (some r) = s.close := by
  unfold ActiveStream.close
  rw [if_neg (by simp [h]), if_neg (by simp [h])]
  simp [hne, hr]

/-- The conclusion of claim C5 for a stream record `s`: the first close call
returns true, auto-finalizes every pending bubble with a per-bubble done
event each, then appends the single terminal event (shaped by the reason:
error with message and reason, interrupted with the reason detail, or done
with detail defaulting to normal) and the end sentinel — the terminal event
being the last event before stream termination — and every later close call
returns false and changes nothing. -/
def C5Post (s : ActiveStream) : Prop :=
  (s.close).2 = true ∧
  (s.close).1.queueItems =
    s.queueItems
      ++ ((s.sessionBubbles.filter (fun b => b.done = false)).map
            (fun b => QueueItem.ev (Event.doneBubble b.id)))
      ++ [QueueItem.ev (ActiveStream.closeTerminal s), QueueItem.endSignal] ∧
  (s.reason = "error" →
    ActiveStream.closeTerminal s = Event.error (pyStrOr s.errorMessage "stream error")
      (pyStrOr s.reasonDetail "error")) ∧
  (s.reason = "interrupted" →
    ActiveStream.closeTerminal s = Event.interrupted (pyStrOr s.reasonDetail "interrupted")) ∧
  (s.reason ≠ "error" → s.reason ≠ "interrupted" →
    ActiveStream.closeTerminal s = Event.doneStream (pyStrOr s.reasonDetail "normal")) ∧
  (s.close).1.closed = true ∧
  (∀ b ∈ (s.close).1.sessionBubbles, b.done = true) ∧
  (∀ r2, ((s.close).1.close r2) = ((s.close).1, false))

/-- C5: ActiveStream.close is idempotent and returns whether it performed
work; the first call finalizes pending bubbles (per-bubble done events
first), emits exactly one terminal event — error with message and reason if
the reason is error, interrupted with the reason detail if interrupted, else
done with detail defaulting to normal — enqueues the end sentinel last, and
returns true; subsequent calls emit nothing, change nothing and return
false. -/
theorem C5_close_idempotent_terminal (s : ActiveStream) (h : s.closed = false)
    (hch : s.channelClosed = false) : C5Post s := by
  have hclose := close_eq_of_open s h hch
  refine ⟨by rw [hclose], by rw [hclose], ?_, ?_, ?_, by rw [hclose], ?_, ?_⟩
  · intro hr
    simp [ActiveStream.closeTerminal, hr]
  · intro hr
    simp [ActiveStream.closeTerminal, hr]
  · intro hr1 hr2
    simp [ActiveStream.closeTerminal, hr1, hr2]
  · rw [hclose]
    intro b hb
    simp only [List.mem_map] at hb
    obtain ⟨b0, _, hb0⟩ := hb
    by_cases hd : b0.done = true
    · rw [← hb0]
      simp [hd]
    · rw [← hb0]
      simp [hd]
  · intro r2
    rw [hclose]
    unfold ActiveStream.close
    rw [if_pos (by rfl)]

/-- A concrete stream for the C5 witness: one pending bubble, reason still
`done`. -/
def C5exStream : ActiveStream :=
  { streamId := "s5", conversationId := "c5",
    sessionBubbles := [{ id := "b1", role := "assistant", type := "text" }] }

/-- A closed instance of C5: on the example stream the first close emits the
auto-finalize done event, the terminal done event with detail normal, then
the sentinel, and the second close is a no-op returning false. -/
theorem C5_close_idempotent_terminal_witness : C5Post C5exStream :=
  C5_close_idempotent_terminal C5exStream rfl rfl

/-- C6 as stated is false on the code: the first-event timeout (30 s) is not
longer than the idle timeout (60 s). -/
theorem C6_counterexample :
    ¬ (IDLE_TIMEOUT_SECONDS < FIRST_EVENT_TIMEOUT_SECONDS) := by decide

/-- The conclusion of the amended claim C6 for a loop state `ls`: the first
wait uses the first-event timeout and later waits the idle timeout (the
first-event timeout being the shorter), a timed-out wait sets reason
interrupted with detail idle_timeout and closes the stream (auto-finalize
events, then the interrupted terminal event, then the sentinel) while the
loop is not finished and keeps consuming, and a late end-of-stream signal
afterwards still drains: the loop consumes it and terminates without
yielding anything further. -/
def C6Post (ls : LoopState) : Prop :=
  nextTimeout false = FIRST_EVENT_TIMEOUT_SECONDS ∧
  nextTimeout true = IDLE_TIMEOUT_SECONDS ∧
  FIRST_EVENT_TIMEOUT_SECONDS < IDLE_TIMEOUT_SECONDS ∧
  (consumeStep ls WaitOutcome.timedOut).active.reason = "interrupted" ∧
  (consumeStep ls WaitOutcome.timedOut).active.reasonDetail = some "idle_timeout" ∧
  (consumeStep ls WaitOutcome.timedOut).active.closed = true ∧
  (consumeStep ls WaitOutcome.timedOut).finished = false ∧
  (consumeStep ls WaitOutcome.timedOut).yielded = ls.yielded ∧
  (consumeStep ls WaitOutcome.timedOut).active.queueItems =
    ls.active.queueItems
      ++ ((ls.active.sessionBubbles.filter (fun b => b.done = false)).map
            (fun b => QueueItem.ev (Event.doneBubble b.id)))
      ++ [QueueItem.ev (Event.interrupted "idle_timeout"), QueueItem.endSignal] ∧
  (consumeStep (consumeStep ls WaitOutcome.timedOut)
    (WaitOutcome.got QueueItem.endSignal)).finished = true ∧
  (consumeStep (consumeStep ls WaitOutcome.timedOut)
    (WaitOutcome.got QueueItem.endSignal)).yielded = ls.yielded

/-- C6 amended: the first queue wait uses the first-event timeout, which is
shorter (30 s) than the idle timeout (60 s) used for subsequent waits; a
timeout sets the reason to interrupted with detail idle_timeout and triggers
close, and the loop keeps consuming so a late end-of-stream signal still
drains. -/
theorem C6_timeouts_and_idle_interrupt (ls : LoopState)
    (h1 : ls.finished = false) (h2 : ls.active.closed = false)
    (h3 : ls.active.reason = "done") (h4 : ls.active.channelClosed = false) :
    C6Post ls := by
  have hsr : ls.active.setReason "interrupted" (some "idle_timeout") =
      { ls.active with reason := "interrupted", reasonDetail := some "idle_timeout" } := by
    have : ls.active.setReason "interrupted" (some "idle_timeout") =
        { ls.active with
          reason := "interrupted"
          reasonDetail := some "idle_timeout"
          errorMessage := ls.active.errorMessage } := by
      simp only [ActiveStream.setReason, h3]
      simp
    simpa using this
  set A : ActiveStream :=
    { ls.active with reason := "interrupted", reasonDetail := some "idle_timeout" } with hA
  have hAclosed : A.closed = false := h2
  have hAch : A.channelClosed = false := h4
  have hfix : A.setReason "interrupted" = A := by
    simp only [ActiveStream.setReason]
    rw [if_neg (by simp [h2]),
      if_neg (by simp [show A.reason = "interrupted" from rfl])]
  have hcl : A.close (some "interrupted") = A.close :=
    close_some_eq_close_of_setReason_fix A "interrupted" hAclosed hfix (by decide)
  have hAeq := close_eq_of_open A hAclosed hAch
  have hstep : consumeStep ls WaitOutcome.timedOut =
      { ls with active := (A.close (some "interrupted")).1 } := by
    simp only [consumeStep]
    rw [if_neg (by simp [h1])]
    rw [hsr]
  have hterm : ActiveStream.closeTerminal A = Event.interrupted "idle_timeout" := by
    simp [ActiveStream.closeTerminal, hA, pyStrOr]
  refine ⟨rfl, rfl, by decide, ?_, ?_, ?_, ?_, ?_, ?_, ?_, ?_⟩
  · rw [hstep, hcl, hAeq]
  · rw [hstep, hcl, hAeq]
  · rw [hstep, hcl, hAeq]
  · rw [hstep]
    exact h1
  · rw [hstep]
  · rw [hstep, hcl, hAeq]
    simp [hterm, hA]
  · rw [hstep, hcl, hAeq]
    simp only [consumeStep]
    rw [if_neg (by simp [h1])]
    simp
  · rw [hstep, hcl, hAeq]
    simp only [consumeStep]
    rw [if_neg (by simp [h1])]
    simp

/-- A concrete loop state for the C6 witness: a running loop over a stream
with one pending bubble. -/
def C6exLoop : LoopState := { active := C5exStream }

/-- A closed instance of the amended C6 at the example loop state. -/
theorem C6_timeouts_and_idle_interrupt_witness : C6Post C6exLoop :=
  C6_timeouts_and_idle_interrupt C6exLoop rfl rfl rfl rfl

theorem dictGet_some_mem {α : Type} (d : List (String × α)) (k : String) (v : α)
    (h : dictGet d k = some v) : k ∈ d.map Prod.fst := by
  induction d with
  | nil => simp [dictGet] at h
  | cons kv rest ih =>
    obtain ⟨k0, v0⟩ := kv
    simp only [dictGet] at h
    by_cases h0 : k0 = k
    · simp [h0]
    · simp only [if_neg h0] at h
      simp [ih h]

theorem map_fst_dictSet_of_mem {α : Type} (d : List (String × α)) (k : String)
    (v : α) (h : k ∈ d.map Prod.fst) :
    (dictSet d k v).map Prod.fst = d.map Prod.fst := by
  induction d with
  | nil => simp at h
  | cons kv rest ih =>
    obtain ⟨k0, v0⟩ := kv
    by_cases h0 : k0 = k
    · simp [dictSet, h0]
    · simp only [List.map_cons, List.mem_cons] at h
      rcases h with h | h
      · exact absurd h.symm h0
      · simp [dictSet, h0, ih h]

theorem dictRemove_of_get_none {α : Type} (d : List (String × α)) (k : String)
    (h : dictGet d k = none) : dictRemove d k = d := by
  induction d with
  | nil => rfl
  | cons kv rest ih =>
    obtain ⟨k0, v0⟩ := kv
    simp only [dictGet] at h
    by_cases h0 : k0 = k
    · simp [h0] at h
    · simp only [if_neg h0] at h
      simp [dictRemove, h0, ih h]

theorem merge_colors_step_shape (m : List (String × JVal)) (kv : String × JVal) :
    ∃ w, merge_colors_step m kv = dictSet m kv.1 w := by
  unfold merge_colors_step
  by_cases hb : kv.1 = "bubble" ∨ kv.1 = "header"
  · rw [if_pos hb]
    cases hv : kv.2 with
    | obj value =>
      cases hg : dictGet m kv.1 with
      | none => exact ⟨JVal.obj value, rfl⟩
      | some cur =>
        cases cur with
        | obj current => exact ⟨JVal.obj (dictUpdate current value), rfl⟩
        | null => exact ⟨JVal.obj value, rfl⟩
        | bool b => exact ⟨JVal.obj value, rfl⟩
        | int n => exact ⟨JVal.obj value, rfl⟩
        | str s => exact ⟨JVal.obj value, rfl⟩
    | null => exact ⟨kv.2, by rw [hv]⟩
    | bool b => exact ⟨kv.2, by rw [hv]⟩
    | int n => exact ⟨kv.2, by rw [hv]⟩
    | str s => exact ⟨kv.2, by rw [hv]⟩
  · rw [if_neg hb]
    exact ⟨kv.2, rfl⟩

theorem merge_colors_get_not_mem (ec ic : List (String × JVal)) (g : String)
    (h : g ∉ ic.map Prod.fst) :
    dictGet (merge_colors ec ic) g = dictGet ec g := by
  induction ic generalizing ec with
  | nil => rfl
  | cons kv rest ih =>
    simp only [List.map_cons, List.mem_cons] at h
    push_neg at h
    have hstep : merge_colors ec (kv :: rest) = merge_colors (merge_colors_step ec kv) rest := rfl
    obtain ⟨w, hw⟩ := merge_colors_step_shape ec kv
    rw [hstep, hw, ih _ h.2, dictGet_dictSet]
    rw [if_neg (fun he => h.1 he.symm)]

/-- The group-wise part of the colors merge: when both the incoming and the
existing colors hold a dict under `bubble` (or `header`), the merged colors
hold their key-by-key union, incoming entries winning. -/
theorem merge_colors_get_group (ec ic : List (String × JVal)) (g : String)
    (ig eg : List (String × JVal)) (hg : g = "bubble" ∨ g = "header")
    (hnd : (ic.map Prod.fst).Nodup)
    (hic : dictGet ic g = some (JVal.obj ig))
    (hec : dictGet ec g = some (JVal.obj eg)) :
    dictGet (merge_colors ec ic) g = some (JVal.obj (dictUpdate eg ig)) := by
  induction ic generalizing ec with
  | nil => simp [dictGet] at hic
  | cons kv rest ih =>
    obtain ⟨k0, v0⟩ := kv
    simp only [List.map_cons, List.nodup_cons] at hnd
    have hstep : merge_colors ec ((k0, v0) :: rest)
        = merge_colors (merge_colors_step ec (k0, v0)) rest := rfl
    simp only [dictGet] at hic
    by_cases h0 : k0 = g
    · rw [if_pos h0] at hic
      have hv0 : v0 = JVal.obj ig := by injection hic
      have hstepval : merge_colors_step ec (k0, v0)
          = dictSet ec g (JVal.obj (dictUpdate eg ig)) := by
        unfold merge_colors_step
        rw [if_pos (by simp [h0, hg])]
        rw [hv0]
        simp only [h0, hec]
      rw [hstep, hstepval]
      rw [merge_colors_get_not_mem _ _ _ (by rw [← h0]; exact hnd.1)]
      rw [dictGet_dictSet]
      simp
    · rw [if_neg h0] at hic
      obtain ⟨w, hw⟩ := merge_colors_step_shape ec (k0, v0)
      rw [hstep, hw]
      refine ih _ hnd.2 hic ?_
      rw [dictGet_dictSet]
      rw [if_neg h0]
      exact hec

/-- The config dict produced by _apply_config for a patch that carries no
role/type keys: the patch is merged into the existing config wholesale, with
the colors value replaced by the `_merge_colors` merge exactly when both the
incoming patch and the existing config hold a colors dict. -/
theorem applyConfig_config_eq (ctx : BubbleCtx) (st : BubbleState)
    (p : List (String × JVal)) (e : Bool)
    (hrole : dictGet p "role" = none) (htype : dictGet p "type" = none)
    (hne : p ≠ []) :
    (Bubble.applyConfig ctx st p e).1.config =
      dictUpdate st.config
        (match dictGet p "colors", dictGet st.config "colors" with
          | some (JVal.obj ic), some (JVal.obj ec) =>
            dictSet p "colors" (JVal.obj (merge_colors ec ic))
          | _, _ => p) := by
  have hpc : dictRemove (dictRemove p "role") "type" = p := by
    rw [dictRemove_of_get_none _ _ hrole, dictRemove_of_get_none _ _ htype]
  obtain ⟨kv, rest, rfl⟩ : ∃ kv rest, p = kv :: rest := by
    cases p with
    | nil => exact absurd rfl hne
    | cons kv rest => exact ⟨kv, rest, rfl⟩
  simp only [Bubble.applyConfig, hrole, htype, Option.getD]
  rw [hpc]
  split
  · split_ifs <;> simp_all
  · split_ifs <;> rfl

theorem colorsPatch_facts (p cfg : List (String × JVal))
    (hnd : (p.map Prod.fst).Nodup) :
    (∀ k, k ≠ "colors" →
      dictGet (match dictGet p "colors", dictGet cfg "colors" with
        | some (JVal.obj ic), some (JVal.obj ec) =>
          dictSet p "colors" (JVal.obj (merge_colors ec ic))
        | _, _ => p) k = dictGet p k) ∧
    (((match dictGet p "colors", dictGet cfg "colors" with
        | some (JVal.obj ic), some (JVal.obj ec) =>
          dictSet p "colors" (JVal.obj (merge_colors ec ic))
        | _, _ => p).map Prod.fst).Nodup) := by
  constructor
  · intro k hk
    split
    · rw [dictGet_dictSet]
      rw [if_neg (fun he => hk he.symm)]
    · rfl
  · split
    · rename_i ic ec hic hec
      rw [map_fst_dictSet_of_mem _ _ _ (dictGet_some_mem _ _ _ hic)]
      exact hnd
    · exact hnd

/-- First config patch of the C7 example: set the bubble background color. -/
def C7p1 : List (String × JVal) :=
  [("colors", JVal.obj [("bubble", JVal.obj [("bg", JVal.str "#111")])])]

/-- Second config patch of the C7 example: set the bubble text color. -/
def C7p2 : List (String × JVal) :=
  [("colors", JVal.obj [("bubble", JVal.obj [("text", JVal.str "#eee")])])]

/-- A fresh bubble for the C7 example. -/
def C7bubble : BubbleState := { id := "b7", role := "assistant", type := "text" }

/-- C7: applying a config patch merges shallowly at top level except under
`colors`: applying the bg patch then the text patch to a fresh bubble yields
colors with both keys (union, not replacement); in general, for a patch
without role/type keys, a non-colors key takes the patch value when present
and keeps the existing value otherwise, the colors value is the
`_merge_colors` merge when both sides hold colors dicts, the bubble/header
groups merge key-by-key, and within a group new color keys overwrite
same-named old ones while unspecified keys survive. -/
theorem C7_colors_union_merge :
    ((Bubble.applyConfig ⟨true, true⟩
        (Bubble.applyConfig ⟨true, true⟩ C7bubble C7p1 true).1 C7p2 true).1).config
      = [("colors", JVal.obj [("bubble",
          JVal.obj [("bg", JVal.str "#111"), ("text", JVal.str "#eee")])])] ∧
    (∀ (ctx : BubbleCtx) (st : BubbleState) (p : List (String × JVal)) (e : Bool),
      dictGet p "role" = none → dictGet p "type" = none → p ≠ [] →
      (p.map Prod.fst).Nodup →
      ((∀ k, k ≠ "colors" →
          dictGet ((Bubble.applyConfig ctx st p e).1.config) k =
            (match dictGet p k with
              | some v => some v
              | none => dictGet st.config k)) ∧
        (∀ ic ec, dictGet p "colors" = some (JVal.obj ic) →
          dictGet st.config "colors" = some (JVal.obj ec) →
          dictGet ((Bubble.applyConfig ctx st p e).1.config) "colors"
            = some (JVal.obj (merge_colors ec ic))))) ∧
    (∀ (ec ic : List (String × JVal)) (g : String) (ig eg : List (String × JVal)),
      (g = "bubble" ∨ g = "header") → (ic.map Prod.fst).Nodup →
      dictGet ic g = some (JVal.obj ig) → dictGet ec g = some (JVal.obj eg) →
      dictGet (merge_colors ec ic) g = some (JVal.obj (dictUpdate eg ig))) ∧
    (∀ (eg ig : List (String × JVal)) (c : String), (ig.map Prod.fst).Nodup →
      dictGet (dictUpdate eg ig) c =
        (match dictGet ig c with
          | some v => some v
          | none => dictGet eg c)) := by
  refine ⟨rfl, ?_, ?_, ?_⟩
  · intro ctx st p e hrole htype hne hnd
    constructor
    · intro k hk
      rw [applyConfig_config_eq ctx st p e hrole htype hne]
      rw [dictGet_dictUpdate _ _ _ (colorsPatch_facts p st.config hnd).2]
      rw [(colorsPatch_facts p st.config hnd).1 k hk]
      cases dictGet p k <;> rfl
    · intro ic ec hic hec
      rw [applyConfig_config_eq ctx st p e hrole htype hne]
      rw [dictGet_dictUpdate _ _ _ (colorsPatch_facts p st.config hnd).2]
      simp only [hic, hec]
      rw [dictGet_dictSet, if_pos rfl]
  · intro ec ic g ig eg hg hnd hic hec
    exact merge_colors_get_group ec ic g ig eg hg hnd hic hec
  · intro eg ig c hnd
    rw [dictGet_dictUpdate eg ig c hnd]
    cases dictGet ig c <;> rfl

/-- A closed instance of C7: the second patch applied on top of the first,
with the hypotheses of the general part discharged at the concrete values,
reproduces the claim's example colors. -/
theorem C7_colors_union_merge_witness :
    dictGet ((Bubble.applyConfig ⟨true, true⟩
        (Bubble.applyConfig ⟨true, true⟩ C7bubble C7p1 true).1 C7p2 true).1.config)
        "colors"
      = some (JVal.obj (merge_colors [("bubble", JVal.obj [("bg", JVal.str "#111")])]
          [("bubble", JVal.obj [("text", JVal.str "#eee")])])) ∧
    merge_colors [("bubble", JVal.obj [("bg", JVal.str "#111")])]
        [("bubble", JVal.obj [("text", JVal.str "#eee")])]
      = [("bubble", JVal.obj [("bg", JVal.str "#111"), ("text", JVal.str "#eee")])] := by
  refine ⟨?_, rfl⟩
  exact ((C7_colors_union_merge.2.1 ⟨true, true⟩
      (Bubble.applyConfig ⟨true, true⟩ C7bubble C7p1 true).1 C7p2 true
      rfl rfl (fun h => List.noConfusion h) (by decide)).2
    [("bubble", JVal.obj [("text", JVal.str "#eee")])]
    [("bubble", JVal.obj [("bg", JVal.str "#111")])] rfl rfl)

theorem validateList_length (l n : List ConvItem)
    (h : validateConversationList l = Except.ok n) : n.length = l.length := by
  induction l generalizing n with
  | nil =>
    simp only [validateConversationList] at h
    injection h with h
    rw [← h]
  | cons item rest ih =>
    simp only [validateConversationList] at h
    rcases h1 : validate_conversation_item item with e | ni <;> rw [h1] at h
    · exact absurd h (by simp)
    · rcases h2 : validateConversationList rest with e | ns <;> rw [h2] at h
      · exact absurd h (by simp)
      · injection h with h
        rw [← h]
        simp [ih ns h2]

theorem validateList_get (l n : List ConvItem)
    (h : validateConversationList l = Except.ok n) (j : Nat)
    (item nitem : ConvItem) (hl : l.get? j = some item) (hn : n.get? j = some nitem) :
    validate_conversation_item item = Except.ok nitem := by
  induction l generalizing n j with
  | nil => simp at hl
  | cons hd rest ih =>
    simp only [validateConversationList] at h
    rcases h1 : validate_conversation_item hd with e | ni <;> rw [h1] at h
    · exact absurd h (by simp)
    · rcases h2 : validateConversationList rest with e | ns <;> rw [h2] at h
      · exact absurd h (by simp)
      · injection h with h
        subst h
        cases j with
        | zero =>
          simp only [List.get?] at hl hn
          injection hl with hl
          injection hn with hn
          rw [← hl, ← hn]
          exact h1
        | succ j0 =>
          simp only [List.get?] at hl hn
          exact ih ns h2 j0 hl hn

theorem dictGet_filter {α : Type} (l : List (String × α)) (k : String)
    (p : String × α → Bool) (h : ∀ v, (k, v) ∈ l → p (k, v) = true) :
    dictGet (l.filter p) k = dictGet l k := by
  induction l with
  | nil => rfl
  | cons kv rest ih =>
    obtain ⟨k0, v0⟩ := kv
    by_cases h0 : k0 = k
    · subst h0
      rw [List.filter_cons_of_pos (h v0 (List.mem_cons_self _ _))]
      simp [dictGet]
    · have hrest : ∀ v, (k, v) ∈ rest → p (k, v) = true := by
        intro v hv
        exact h v (List.mem_cons_of_mem _ hv)
      rcases hp : p (k0, v0) with _ | _
      · rw [List.filter_cons_of_neg (by simp [hp])]
        rw [ih hrest]
        simp [dictGet, h0]
      · rw [List.filter_cons_of_pos hp]
        simp [dictGet, h0, ih hrest]

theorem fold_skip_eq_append_filter (item : ConvItem) :
    ∀ base : ConvItem, (item.map Prod.fst).Nodup →
      item.foldl (fun acc kv => if (dictGet acc kv.1).isNone then acc ++ [kv] else acc) base
        = base ++ item.filter (fun kv => (dictGet base kv.1).isNone) := by
  induction item with
  | nil =>
    intro base hnd
    simp
  | cons kv rest ih =>
    intro base hnd
    simp only [List.map_cons, List.nodup_cons] at hnd
    rw [List.foldl_cons]
    rcases hb : (dictGet base kv.1).isNone with _ | _
    · rw [if_neg (by simp [hb])]
      rw [ih base hnd.2]
      rw [List.filter_cons_of_neg (by simp [hb])]
    · rw [if_pos (by simp [hb])]
      rw [ih (base ++ [kv]) hnd.2]
      have hcong : rest.filter (fun kv2 => (dictGet (base ++ [kv]) kv2.1).isNone)
          = rest.filter (fun kv2 => (dictGet base kv2.1).isNone) := by
        apply List.filter_congr
        intro kv2 hkv2
        have hne : kv.1 ≠ kv2.1 := by
          intro he
          exact hnd.1 (he ▸ List.mem_map_of_mem Prod.fst hkv2)
        rw [dictGet_append]
        rcases hbk : dictGet base kv2.1 with _ | v
        · simp [dictGet, fun h => hne h]
        · simp
      rw [hcong]
      rw [List.filter_cons_of_pos (by simp [hb])]
      simp

/-- The normalized entry produced by `_validate_conversation_item` is
value-equal, key by key, to the input entry when the input id is a string:
the three required fields are copied through and every passthrough field
keeps its value. -/
theorem validate_item_preserves (item nitem : ConvItem)
    (hnd : (item.map Prod.fst).Nodup) (sid : String)
    (hid : dictGet item "id" = some (JVal.str sid))
    (hok : validate_conversation_item item = Except.ok nitem) :
    ∀ k, dictGet nitem k = dictGet item k := by
  rcases htitle : dictGet item "title" with _ | tv
  · simp [validate_conversation_item, hid, htitle] at hok
  rcases hupd : dictGet item "updatedAt" with _ | uv
  · simp [validate_conversation_item, hid, htitle, hupd] at hok
  cases tv with
  | str t =>
    cases uv with
    | int u =>
      simp only [validate_conversation_item, hid, htitle, hupd] at hok
      injection hok with hok
      subst hok
      intro k
      rw [fold_skip_eq_append_filter item _ hnd]
      rw [dictGet_append]
      by_cases hk1 : k = "id"
      · subst hk1
        simp [dictGet, pyStr, hid]
      by_cases hk2 : k = "title"
      · subst hk2
        simp [dictGet, htitle]
      by_cases hk3 : k = "updatedAt"
      · subst hk3
        simp [dictGet, hupd]
      have hk1n : "id" ≠ k := fun h => hk1 h.symm
      have hk2n : "title" ≠ k := fun h => hk2 h.symm
      have hk3n : "updatedAt" ≠ k := fun h => hk3 h.symm
      have hbase : dictGet [("id", JVal.str (pyStr (JVal.str sid))),
          ("title", JVal.str t), ("updatedAt", JVal.int u)] k = none := by
        simp [dictGet, hk1n, hk2n, hk3n]
      rw [hbase]
      rw [dictGet_filter]
      intro v hv
      simp [hbase]
    | null => simp [validate_conversation_item, hid, htitle, hupd] at hok
    | bool b => simp [validate_conversation_item, hid, htitle, hupd] at hok
    | str s2 => simp [validate_conversation_item, hid, htitle, hupd] at hok
    | obj o => simp [validate_conversation_item, hid, htitle, hupd] at hok
  | null => simp [validate_conversation_item, hid, htitle] at hok
  | bool b => simp [validate_conversation_item, hid, htitle] at hok
  | int n => simp [validate_conversation_item, hid, htitle] at hok
  | obj o => simp [validate_conversation_item, hid, htitle] at hok

/-- C9: get-conversation-list defaults to the empty list for a user with no
stored list; a successful set-conversation-list stores the validated entries
under the normalized user id, and the following get returns them in input
order with every field of every entry preserved (ids being strings),
passthrough fields included; a second write replaces the stored list
outright. -/
theorem C9_conversation_lists (lists : List (String × List ConvItem))
    (userId : Option String) (conversations norml : List ConvItem)
    (hval : validateConversationList conversations = Except.ok norml) :
    (∀ (lists2 : List (String × List ConvItem)) (uid2 : Option String),
      dictGet lists2 (normalize_user_id uid2) = none →
      get_conversation_list lists2 uid2 = []) ∧
    set_conversation_list lists userId conversations
      = Except.ok (dictSet lists (normalize_user_id userId) norml) ∧
    get_conversation_list (dictSet lists (normalize_user_id userId) norml) userId
      = norml ∧
    norml.length = conversations.length ∧
    (∀ j item nitem, conversations.get? j = some item → norml.get? j = some nitem →
      (item.map Prod.fst).Nodup → (∃ s, dictGet item "id" = some (JVal.str s)) →
      ∀ k, dictGet nitem k = dictGet item k) ∧
    (∀ conversations2 norml2,
      validateConversationList conversations2 = Except.ok norml2 →
      set_conversation_list (dictSet lists (normalize_user_id userId) norml) userId
          conversations2
        = Except.ok (dictSet (dictSet lists (normalize_user_id userId) norml)
            (normalize_user_id userId) norml2) ∧
      get_conversation_list (dictSet (dictSet lists (normalize_user_id userId) norml)
          (normalize_user_id userId) norml2) userId = norml2) := by
  refine ⟨?_, ?_, ?_, validateList_length _ _ hval, ?_, ?_⟩
  · intro lists2 uid2 hnone
    simp [get_conversation_list, hnone]
  · simp [set_conversation_list, hval]
  · simp [get_conversation_list, dictGet_dictSet]
  · intro j item nitem hl hn hnd hid
    obtain ⟨sid, hsid⟩ := hid
    exact validate_item_preserves item nitem hnd sid hsid
      (validateList_get conversations norml hval j item nitem hl hn)
  · intro conversations2 norml2 hval2
    constructor
    · simp [set_conversation_list, hval2]
    · simp [get_conversation_list, dictGet_dictSet]

/-- A concrete conversation entry with a passthrough field for the C9
witness. -/
def C9item : ConvItem :=
  [("id", JVal.str "c1"), ("title", JVal.str "Hello"),
   ("updatedAt", JVal.int 123), ("pinned", JVal.bool true)]

/-- A closed instance of C9: storing one entry for a fresh user and reading
it back preserves the entry, its passthrough field included, and an unknown
user reads the empty list. -/
theorem C9_conversation_lists_witness :
    get_conversation_list [] (some "u1") = [] ∧
    set_conversation_list [] (some "u1") [C9item]
      = Except.ok (dictSet [] (normalize_user_id (some "u1")) [C9item]) ∧
    get_conversation_list (dictSet [] (normalize_user_id (some "u1")) [C9item])
        (some "u1") = [C9item] ∧
    dictGet C9item "pinned" = some (JVal.bool true) := by
  have h := C9_conversation_lists [] (some "u1") [C9item] [C9item] rfl
  refine ⟨h.1 [] (some "u1") rfl, ?_, h.2.2.1, rfl⟩
  exact h.2.1

theorem applyConfig_done_eq (ctx : BubbleCtx) (st : BubbleState)
    (p : List (String × JVal)) (e : Bool) :
    (Bubble.applyConfig ctx st p e).1.done = st.done := by
  cases p with
  | nil => rfl
  | cons kv rest =>
    simp only [Bubble.applyConfig]
    cases hr : (dictGet (kv :: rest) "role").getD JVal.null <;>
      cases ht : (dictGet (kv :: rest) "type").getD JVal.null <;>
        simp only [hr, ht] <;> split <;> split_ifs <;> rfl

theorem set_done_eq (ctx : BubbleCtx) (st : BubbleState) (text : String) :
    (Bubble.set ctx st text).1.done = st.done := by
  simp only [Bubble.set]
  split_ifs <;> rfl

theorem done_done_true (ctx : BubbleCtx) (st : BubbleState) :
    (Bubble.done ctx st).1.done = true := by
  by_cases h : st.done = true
  · simp [Bubble.done, h]
  · simp only [Bubble.done, if_neg h]
    split_ifs <;> rfl

/-- C10: with no stream attached to the active session, send marks the new
session bubble done immediately (even when done() was never called on the
template); with a stream attached, the new bubble's done flag ends up equal
to the template's. -/
theorem C10_send_done_flag (tmpl : BubbleState) (idFixed : Bool)
    (freshId : String) (sess : BubbleSession)
    (hfresh : (if idFixed = true then tmpl.id else freshId)
      ∉ sess.bubbles.map (fun b => b.id)) :
    (sess.hasStreamAttached = false →
      (Bubble.send false tmpl idFixed freshId sess).map (fun r => r.1.done)
        = Except.ok true) ∧
    (sess.hasStreamAttached = true →
      (Bubble.send false tmpl idFixed freshId sess).map (fun r => r.1.done)
        = Except.ok tmpl.done) := by
  constructor
  · intro hs
    simp only [Bubble.send, hs]
    rw [if_neg (by simp)]
    rw [if_neg hfresh]
    have hr2done : ∀ st : BubbleState,
        (if tmpl.content ≠ "" then Bubble.set ⟨true, false⟩ st tmpl.content
          else (st, [])).1.done = st.done := by
      intro st
      split_ifs
      · exact set_done_eq _ _ _
      · rfl
    rw [if_neg (by simp)]
    simp only [Except.map]
    rw [hr2done, applyConfig_done_eq]
    simp
  · intro hs
    simp only [Bubble.send, hs]
    rw [if_neg (by simp)]
    rw [if_neg hfresh]
    have hr2done : ∀ st : BubbleState,
        (if tmpl.content ≠ "" then Bubble.set ⟨true, true⟩ st tmpl.content
          else (st, [])).1.done = st.done := by
      intro st
      split_ifs
      · exact set_done_eq _ _ _
      · rfl
    by_cases hd : tmpl.done = true
    · rw [if_pos (by simp [hd])]
      simp only [Except.map]
      rw [done_done_true, hd]
    · rw [if_neg (by simp [hd])]
      simp only [Except.map]
      rw [hr2done, applyConfig_done_eq]
      simp at hd
      simp [hd]

/-- A template bubble that is not done, for the C10 witness. -/
def C10tmpl : BubbleState := { id := "t1", role := "assistant", type := "text" }

/-- A session with no attached stream for the C10 witness. -/
def C10sessNoStream : BubbleSession := { conversationId := "c10" }

/-- A session with an attached stream for the C10 witness. -/
def C10sessStream : BubbleSession :=
  { conversationId := "c10", hasStreamAttached := true }

/-- A closed instance of C10: sending the not-done template into a
stream-less session yields done = true; into a session with a stream, done
stays false (the template's flag). -/
theorem C10_send_done_flag_witness :
    C10tmpl.done = false ∧
    (Bubble.send false C10tmpl true "f1" C10sessNoStream).map (fun r => r.1.done)
      = Except.ok true ∧
    (Bubble.send false C10tmpl true "f1" C10sessStream).map (fun r => r.1.done)
      = Except.ok false := by
  refine ⟨rfl, ?_, ?_⟩
  · exact (C10_send_done_flag C10tmpl true "f1" C10sessNoStream (by decide)).1 rfl
  · exact (C10_send_done_flag C10tmpl true "f1" C10sessStream (by decide)).2 rfl

end Bubblekit
